import Mathlib

/- Verification of the calendar reconciliation core of the tennis-calendars
   repository (src/main.py) against its natural-language specification.

   Modelling conventions:
   * UTC timestamps (Python aware datetimes) are integers counting
     microseconds since the Unix epoch.  Python datetime comparison and
     timedelta addition at UTC are exact integer arithmetic on that count.
   * The ISO-8601 wire strings handled by the code are modelled as Lean
     strings; the string manipulations of the code (slicing, rfind,
     str.replace, strptime, isoformat) are reimplemented at the character
     level.
   * Python functions that can raise are modelled with Except / Option. -/

/-- Modelled from the spec: project_settings.py is not among the sources; the
spec (section 8, Scenario A) fixes the default match duration at 90 minutes. -/
def MATCH_DEFAULT_DURATION_MINUTES : Int := 90

/-- Modelled from the spec: project_settings.py is not among the sources; the
spec (section 8, Scenario B) fixes the live extension buffer at 20 minutes. -/
def MATCH_EXTEND_MINUTES : Int := 20

/-- datetime.timedelta(minutes=m), as a count of microseconds. -/
def minutesUs (m : Int) : Int := m * 60000000

/-- Days from civil date (proleptic Gregorian), days since 1970-01-01.
Standard civil-from-days algorithm; divisions are Euclidean, which for the
positive divisors used here coincides with floor division. -/
def daysFromCivil (y m d : Int) : Int :=
  let yAdj := if m ≤ 2 then y - 1 else y
  let era := Int.ediv yAdj 400
  let yoe := yAdj - era * 400
  let mp := if 2 < m then m - 3 else m + 9
  let doy := Int.ediv (153 * mp + 2) 5 + d - 1
  let doe := yoe * 365 + Int.ediv yoe 4 - Int.ediv yoe 100 + doy
  era * 146097 + doe - 719468

/-- Civil date (y, m, d) from days since 1970-01-01. -/
def civilFromDays (z : Int) : Int × Int × Int :=
  let z' := z + 719468
  let era := Int.ediv z' 146097
  let doe := z' - era * 146097
  let yoe := Int.ediv (doe - Int.ediv doe 1460 + Int.ediv doe 36524 - Int.ediv doe 146096) 365
  let y := yoe + era * 400
  let doy := doe - (365 * yoe + Int.ediv yoe 4 - Int.ediv yoe 100)
  let mp := Int.ediv (5 * doy + 2) 153
  let d := doy - Int.ediv (153 * mp + 2) 5 + 1
  let m := if mp < 10 then mp + 3 else mp - 9
  (if m ≤ 2 then y + 1 else y, m, d)

/-- Convenience: the instant (µs since epoch) of a civil UTC date-time. -/
def utc (y mo d h mi s : Int) : Int :=
  daysFromCivil y mo d * 86400000000 + ((h * 60 + mi) * 60 + s) * 1000000

/-- The decimal digit character of n mod 10, as printed by Python %d. -/
def digitChar10 (k : Nat) : Char :=
  match k with
  | 0 => '0' | 1 => '1' | 2 => '2' | 3 => '3' | 4 => '4'
  | 5 => '5' | 6 => '6' | 7 => '7' | 8 => '8' | _ => '9'

def digitOf (n : Nat) : Char := digitChar10 (n % 10)

/-- Zero-padded two-digit rendering (%02d) for n < 100. -/
def pad2 (n : Nat) : List Char := [digitOf (n / 10), digitOf n]

/-- Zero-padded four-digit rendering (%04d) for n < 10000 (Python datetime
years are always ≤ 9999). -/
def pad4 (n : Nat) : List Char :=
  [digitOf (n / 1000), digitOf (n / 100), digitOf (n / 10), digitOf n]

/-- Zero-padded six-digit rendering (%06d) of a microsecond count. -/
def pad6 (n : Nat) : List Char :=
  [digitOf (n / 100000), digitOf (n / 10000), digitOf (n / 1000),
   digitOf (n / 100), digitOf (n / 10), digitOf n]

/-- The civil date of a UTC instant. -/
def isoYMD (t : Int) : Int × Int × Int := civilFromDays (Int.ediv t 86400000000)

/-- Whole seconds since midnight of a UTC instant. -/
def isoSec (t : Int) : Nat := (Int.emod t 86400000000).toNat / 1000000

/-- The microsecond component of a UTC instant. -/
def isoUs (t : Int) : Nat := (Int.emod t 86400000000).toNat % 1000000

/-- The date-time body of datetime.isoformat() for a UTC-aware datetime:
YYYY-MM-DDTHH:MM:SS[.ffffff], the fraction present exactly when the
microsecond component is nonzero. -/
def isoBody (t : Int) : List Char :=
  pad4 (isoYMD t).1.toNat ++ '-' :: pad2 (isoYMD t).2.1.toNat ++
    '-' :: pad2 (isoYMD t).2.2.toNat ++
    'T' :: pad2 (isoSec t / 3600) ++ ':' :: pad2 (isoSec t / 60 % 60) ++
    ':' :: pad2 (isoSec t % 60) ++
    (if isoUs t = 0 then [] else '.' :: pad6 (isoUs t))

/-- Character list of datetime.isoformat() for a UTC-aware datetime: the
date-time body followed by the +00:00 offset suffix. -/
def isoChars (t : Int) : List Char :=
  isoBody t ++ ['+', '0', '0', ':', '0', '0']

/-- datetime.isoformat() of a UTC instant, as used by the code for the values
it writes back to the calendar. -/
def pyIsoformat (t : Int) : String := ⟨isoChars t⟩

/-- str(timedelta) for a microsecond difference, as printed by the diff line
of show_if_different. -/
def pyTimedeltaStr (us : Int) : String :=
  let days := Int.ediv us 86400000000
  let rem := (Int.emod us 86400000000).toNat
  let micro := rem % 1000000
  let secs := rem / 1000000
  let dayPart :=
    if days = 0 then "" else
      toString days ++ (if days = 1 ∨ days = -1 then " day, " else " days, ")
  dayPart ++ toString (secs / 3600) ++ ":" ++ ⟨pad2 (secs / 60 % 60)⟩ ++ ":" ++
    ⟨pad2 (secs % 60)⟩ ++ (if micro = 0 then "" else "." ++ ⟨pad6 micro⟩)

/-- str.replace("Z", "+0000") at the character level (replaces every
occurrence, as Python str.replace does). -/
def replaceZ : List Char → List Char
  | [] => []
  | c :: rest =>
    if c = 'Z' then '+' :: '0' :: '0' :: '0' :: '0' :: replaceZ rest
    else c :: replaceZ rest

def readDigit (c : Char) : Nat := c.toNat - 48

/-- Consume exactly two digit characters. -/
def parse2 : List Char → Option (Nat × List Char)
  | a :: b :: r =>
    if a.isDigit && b.isDigit then some (readDigit a * 10 + readDigit b, r) else none
  | _ => none

/-- Consume exactly four digit characters (the %Y field of strptime is the
regular expression \d\d\d\d). -/
def parse4 : List Char → Option (Nat × List Char)
  | a :: b :: c :: d :: r =>
    if a.isDigit && b.isDigit && c.isDigit && d.isDigit then
      some (readDigit a * 1000 + readDigit b * 100 + readDigit c * 10 + readDigit d, r)
    else none
  | _ => none

def expectChar (c : Char) : List Char → Option (List Char)
  | a :: r => if a = c then some r else none
  | _ => none

/-- The %z field: sign, two hour digits, optional colon, two minute digits,
reaching the end of the input.  Returns the offset in minutes.  (The optional
seconds/fraction extension of %z is not modelled; no input of this program
carries it.) -/
def parseOffset : List Char → Option Int
  | c :: rest =>
    if c = '+' || c = '-' then
      match rest with
      | h1 :: h2 :: r1 =>
        if h1.isDigit && h2.isDigit then
          let hh := readDigit h1 * 10 + readDigit h2
          let afterColon := match r1 with
            | ':' :: r2 => r2
            | _ => r1
          match afterColon with
          | m1 :: m2 :: r3 =>
            if m1.isDigit && m2.isDigit && r3.isEmpty then
              let mm := readDigit m1 * 10 + readDigit m2
              if hh * 60 + mm < 1440 then
                some ((if c = '-' then -1 else 1) * (hh * 60 + mm))
              else none
            else none
          | _ => none
        else none
      | _ => none
    else none
  | [] => none

def isLeapYear (y : Nat) : Bool :=
  y % 4 = 0 && (y % 100 != 0 || y % 400 = 0)

def daysInMonth (y m : Nat) : Nat :=
  if m = 2 then (if isLeapYear y then 29 else 28)
  else if m = 4 ∨ m = 6 ∨ m = 9 ∨ m = 11 then 30
  else 31

/-- The range validation performed by strptime and the datetime constructor:
year ≥ 1, month 1..12, day 1..days-in-month, hour ≤ 23, minute ≤ 59,
second ≤ 59. -/
def validDT (y mo d h mi s : Nat) : Bool :=
  1 ≤ y && 1 ≤ mo && mo ≤ 12 && 1 ≤ d && d ≤ daysInMonth y mo &&
    h ≤ 23 && mi ≤ 59 && s ≤ 59

/-- The instant (µs since epoch) of a parsed aware datetime with a
tz offset given in minutes. -/
def mkInstant (y mo d h mi s : Nat) (off : Int) : Int :=
  daysFromCivil (y : Int) (mo : Int) (d : Int) * 86400000000 +
    (((h : Int) * 60 + (mi : Int)) * 60 + (s : Int)) * 1000000 - off * 60000000

/-- The %Y-%m-%d part of the format. -/
def parseYMD (l : List Char) : Option ((Nat × Nat × Nat) × List Char) :=
  (parse4 l).bind fun p1 =>
  (expectChar '-' p1.2).bind fun l2 =>
  (parse2 l2).bind fun p2 =>
  (expectChar '-' p2.2).bind fun l4 =>
  (parse2 l4).bind fun p3 =>
  some ((p1.1, p2.1, p3.1), p3.2)

/-- The %H:%M:%S part of the format. -/
def parseHMS (l : List Char) : Option ((Nat × Nat × Nat) × List Char) :=
  (parse2 l).bind fun p4 =>
  (expectChar ':' p4.2).bind fun l8 =>
  (parse2 l8).bind fun p5 =>
  (expectChar ':' p5.2).bind fun l10 =>
  (parse2 l10).bind fun p6 =>
  some ((p4.1, p5.1, p6.1), p6.2)

/-- strptime with format %Y-%m-%dT%H:%M:%S%z, returning the instant denoted
(µs since epoch).  Field widths are the zero-padded ones of the inputs this
program handles; range validation (performed by strptime and the datetime
constructor) is checked after the structural parse, which yields the same
none/some outcome. -/
def strptimeSZ (l : List Char) : Option Int :=
  (parseYMD l).bind fun pd =>
  (expectChar 'T' pd.2).bind fun lt =>
  (parseHMS lt).bind fun pt =>
  (parseOffset pt.2).bind fun off =>
  if validDT pd.1.1 pd.1.2.1 pd.1.2.2 pt.1.1 pt.1.2.1 pt.1.2.2 then
    some (mkInstant pd.1.1 pd.1.2.1 pd.1.2.2 pt.1.1 pt.1.2.1 pt.1.2.2 off)
  else none

/-- from_google_date_to_datetime (src/main.py:88): replace "Z" with "+0000"
and parse with %Y-%m-%dT%H:%M:%S%z; a failing parse raises ValueError, here
modelled as an error value. -/
def from_google_date_to_datetime (googleDate : String) : Except String Int :=
  match strptimeSZ (replaceZ googleDate.data) with
  | some t => .ok t
  | none => .error ("time data " ++ googleDate ++ " does not match format")

/-- Modelled from the spec: the Match class (common/match.py) is not among
the sources.  Spec section 3: identity name, scheduled start (UTC), isLive,
isFinished (mutually exclusive in intent, carried as two flags), and a
status colour code.  is_still_going() reads the live flag, is_finished()
the finished flag; color is the raw calendar colour code string. -/
structure Match where
  name : String
  startTime : Int
  isLive : Bool
  isFinished : Bool
  color : String
deriving DecidableEq

def Match.is_still_going (m : Match) : Bool := m.isLive

def Match.is_finished (m : Match) : Bool := m.isFinished

/-- Modelled from the spec: Match.status_from_color lives in common/match.py,
which is not among the sources.  The spec's colour glossary assigns
Graphite = cancelled, Grape = finished, Sage = not started,
Basil = live/started, Lavender = interrupted; the corresponding Google
calendar colour ids are 8, 3, 2, 10 and 1. -/
def status_from_color (c : String) : String :=
  if c = "8" then "Status.CANCELLED"
  else if c = "3" then "Status.FINISHED"
  else if c = "2" then "Status.NOT_STARTED"
  else if c = "10" then "Status.LIVE"
  else if c = "1" then "Status.INTERRUPTED"
  else "Status.UNKNOWN"

/-- The fields of a stored calendar event that the reconciler reads:
summary (the correlation key), the start and end dateTime strings, and the
colour id.  The provider-assigned id is irrelevant to the decision logic. -/
structure GEvent where
  summary : String
  start : String
  endTime : String
  colorId : String
deriving DecidableEq

/-- The event body built by create_event (src/main.py:21): scheduled start,
computed end, fixed display attributes, and the match colour. -/
structure CreatedEvent where
  summary : String
  start : String
  endTime : String
  maxAttendees : String
  guestsCanInviteOthers : String
  guestsCanSeeOtherGuests : String
  anyoneCanAddSelf : String
  colorId : String
deriving DecidableEq

/-- Python s[:i] for an integer index (negative indices count from the end,
clamped at zero), as used on the ISO strings. -/
def pySlice (s : String) (i : Int) : String :=
  if 0 ≤ i then ⟨s.data.take i.toNat⟩
  else ⟨s.data.take (s.data.length - (-i).toNat)⟩

/-- Index of the last occurrence of c in l, if any. -/
def rlastIdx (c : Char) : List Char → Option Nat
  | [] => none
  | a :: l =>
    match rlastIdx c l with
    | some j => some (j + 1)
    | none => if a = c then some 0 else none

/-- Python s.rfind(c): index of the last occurrence, or -1. -/
def pyRfind (s : String) (c : Char) : Int :=
  match rlastIdx c s.data with
  | some i => (i : Int)
  | none => -1

/-- different_start_times (src/main.py:53): drop the final character of the
stored value (meant to strip a trailing Z) and everything from the last +
of the new value (meant to strip +00:00), then compare the raw strings. -/
def different_start_times (oldStartDT : String) (newStart : String) : Bool :=
  pySlice oldStartDT (-1) != pySlice newStart (pyRfind newStart '+')

/-- different_end_times (src/main.py:61): same string comparison on the end
values. -/
def different_end_times (oldEndDT : String) (newEnd : String) : Bool :=
  pySlice oldEndDT (-1) != pySlice newEnd (pyRfind newEnd '+')

/-- different_colors (src/main.py:69). -/
def different_colors (oldColorId : String) (newColor : String) : Bool :=
  oldColorId != newColor

/-- The end-time computation of create_event (src/main.py:22-33): default
duration past the scheduled start, extended past now when the match is
still going and the default end has already passed. -/
def create_event_end (matchStart : Int) (isLive : Bool) (now : Int) : Int :=
  let match_time_end := matchStart + minutesUs MATCH_DEFAULT_DURATION_MINUTES
  if isLive ∧ match_time_end < now then now + minutesUs MATCH_EXTEND_MINUTES
  else match_time_end

/-- create_event (src/main.py:21-48): the event body inserted for a match
with no existing event. -/
def create_event (m : Match) (now : Int) : CreatedEvent :=
  { summary := m.name
    start := pyIsoformat m.startTime
    endTime := pyIsoformat (create_event_end m.startTime m.is_still_going now)
    maxAttendees := "100"
    guestsCanInviteOthers := "true"
    guestsCanSeeOtherGuests := "true"
    anyoneCanAddSelf := "true"
    colorId := m.color }

/-- The end-time computation of update_event (src/main.py:107-122): raise the
stored end to the default duration past the scheduled start if it falls
short, then extend past now when the match is still going and the end has
already passed. -/
def update_event_end (matchStart : Int) (isLive : Bool) (event_time_end : Int)
    (now : Int) : Int :=
  let expected_duration := matchStart + minutesUs MATCH_DEFAULT_DURATION_MINUTES
  let e1 := if event_time_end < expected_duration then expected_duration
            else event_time_end
  if isLive ∧ e1 < now then now + minutesUs MATCH_EXTEND_MINUTES else e1

/-- Outcome of update_event: either an update call carrying the three fields
written (start, end, colour), or no change. -/
inductive LiveAction where
  | updated (newStart newEnd newColor : String)
  | noChange
deriving DecidableEq

/-- update_event (src/main.py:103-148), decision part: parse the stored end
(raising on malformed values), compute the new end, compare the three fields
with the string comparisons above, and update exactly when one differs.
The reporting of lines 140-146 is modelled separately by
update_event_report. -/
def update_event (m : Match) (existing_event : GEvent) (now : Int) :
    Except String LiveAction :=
  let match_time_start := pyIsoformat m.startTime
  (from_google_date_to_datetime existing_event.endTime).map fun event_time_end =>
    let event_time_endS :=
      pyIsoformat (update_event_end m.startTime m.is_still_going event_time_end now)
    if different_start_times existing_event.start match_time_start ||
        different_end_times existing_event.endTime event_time_endS ||
        different_colors existing_event.colorId m.color then
      .updated match_time_start event_time_endS m.color
    else
      .noChange

/-- Outcome of update_finished_event: an update writing end = now (rendered
with isoformat on write-back) together with the match colour, an update of
the colour alone, or no change. -/
inductive FinishedAction where
  | updatedEnd (newEnd : Int) (newColor : String)
  | updatedColor (newColor : String)
  | noChange
deriving DecidableEq

/-- update_finished_event (src/main.py:151-186), decision on the parsed
times: truncate the end to now when the stored end is still in the future
and the event has genuinely started; otherwise update the colour if it
changed; otherwise nothing. -/
def update_finished_decision (event_time_start event_time_end now : Int)
    (eventColor matchColor : String) : FinishedAction :=
  if event_time_end > now ∧ now > event_time_start then .updatedEnd now matchColor
  else if eventColor != matchColor then .updatedColor matchColor
  else .noChange

/-- update_finished_event (src/main.py:151-186): parse both stored times
(raising on malformed values) and decide.  The reporting of lines 169-184 is
modelled separately by update_finished_event_report. -/
def update_finished_event (m : Match) (existing_event : GEvent) (now : Int) :
    Except String FinishedAction :=
  (from_google_date_to_datetime existing_event.start).bind fun event_time_start =>
  (from_google_date_to_datetime existing_event.endTime).map fun event_time_end =>
  update_finished_decision event_time_start event_time_end now
    existing_event.colorId m.color

/-- show_if_different (src/main.py:73-85): emit old/new lines when the values
differ (empty string otherwise); when the time flag is set, additionally
parse both values and emit the difference line.  The parse can raise on
malformed values, hence the Except result. -/
def show_if_different (word : String) (old new_ : String) (timeFlag : Bool) :
    Except String String :=
  if old != new_ then
    let full_str := "\t\told " ++ word ++ ": " ++ old ++ "\n\t\tnew " ++ word ++
      ": " ++ new_ ++ "\n"
    if timeFlag then
      (from_google_date_to_datetime old).bind fun old_dt =>
      (from_google_date_to_datetime new_).map fun new_dt =>
      full_str ++ "\t\tdiff: " ++ pyTimedeltaStr (new_dt - old_dt) ++ "\n"
    else .ok full_str
  else .ok ""

/-- The text printed by update_event on an update (src/main.py:140-146):
start and end with the time flag set, status via status_from_color; print
joins its arguments with single spaces and end="" suppresses the newline.
The result values are the fields returned by the provider for the update
call, modelled as echoing the fields that were sent. -/
def update_event_report (old_start old_end old_color : String)
    (result_start result_end : String) (matchColor : String) :
    Except String String :=
  (show_if_different "start" old_start result_start true).bind fun a =>
  (show_if_different "end" old_end result_end true).bind fun b =>
  (show_if_different "status" (status_from_color old_color)
      (status_from_color matchColor) false).map fun c =>
  "\tUpdated event:\n " ++ a ++ " " ++ b ++ " " ++ c

/-- The text printed by update_finished_event on an end-truncating update
(src/main.py:169-174): the end field is shown without the time flag (the
source passes no time=True there), the status via status_from_color. -/
def update_finished_event_report (old_end result_end : String)
    (old_color matchColor : String) : Except String String :=
  (show_if_different "end" old_end result_end false).bind fun a =>
  (show_if_different "status" (status_from_color old_color)
      (status_from_color matchColor) false).map fun b =>
  "\tUpdated finished event:\n " ++ a ++ " " ++ b

/-- The per-match outcome of update_calendar_events. -/
inductive MatchOutcome where
  | created (e : CreatedEvent)
  | finished (a : FinishedAction)
  | live (a : LiveAction)
deriving DecidableEq

/-- The conflict message of src/main.py:207. -/
def conflictMsg : String :=
  "There is more than one event with matching names, and there should only be one!"

/-- One iteration of the loop of update_calendar_events (src/main.py:204-220):
correlate by exact summary/title equality, raise on more than one hit,
create when none, otherwise dispatch on the finished flag. -/
def process_match (events : List GEvent) (now : Int) (m : Match) :
    Except String MatchOutcome :=
  let match_event := events.filter fun event => event.summary == m.name
  if 1 < match_event.length then .error conflictMsg
  else
    match match_event with
    | [] => .ok (.created (create_event m now))
    | ev :: _ =>
      if m.is_finished then (update_finished_event m ev now).map .finished
      else (update_event m ev now).map .live

/-- update_calendar_events (src/main.py:189-220), reconciliation loop over
one pre-fetched event snapshot: matches are processed in order, each
producing one outcome; an uncaught exception (conflict or parse failure)
aborts the loop, leaving the outcomes produced so far and the error. -/
def update_calendar_events (events : List GEvent) (matchList : List Match)
    (now : Int) : List (String × MatchOutcome) × Option String :=
  match matchList with
  | [] => ([], none)
  | m :: rest =>
    match process_match events now m with
    | .error e => ([], some e)
    | .ok a =>
      let r := update_calendar_events events rest now
      ((m.name, a) :: r.1, r.2)

/-- The optional fractional-seconds part of the spec reading: a dot followed
by at least one digit. -/
def specSkipFraction (l : List Char) : List Char :=
  match l with
  | '.' :: d :: rest =>
    if d.isDigit then (d :: rest).dropWhile Char.isDigit else l
  | _ => l

/-- Follows the wording of the spec (sections 4.2 and 6), not the code: the
instant denoted by an ISO-8601 UTC timestamp, truncated to whole seconds,
accepting both equivalent UTC suffix spellings Z and +00:00 and any
sub-second digits.  Used to state claim C4 against the code-side comparisons
different_start_times / different_end_times. -/
def specInstantTruncated (s : String) : Option Int :=
  (parseYMD s.data).bind fun pd =>
  (expectChar 'T' pd.2).bind fun lt =>
  (parseHMS lt).bind fun pt =>
  (match specSkipFraction pt.2 with
    | ['Z'] => some ()
    | ['+', '0', '0', ':', '0', '0'] => some ()
    | _ => none).bind fun _ =>
  if validDT pd.1.1 pd.1.2.1 pd.1.2.2 pt.1.1 pt.1.2.1 pt.1.2.2 then
    some (mkInstant pd.1.1 pd.1.2.1 pd.1.2.2 pt.1.1 pt.1.2.1 pt.1.2.2 0)
  else none

/-- Fixture: a match scheduled 2024-05-01 14:00 UTC, currently live. -/
def mLive : Match :=
  { name := "A vs B", startTime := utc 2024 5 1 14 0 0,
    isLive := true, isFinished := false, color := "10" }

/-- Fixture: the same match, not yet started. -/
def mNotStarted : Match :=
  { name := "A vs B", startTime := utc 2024 5 1 14 0 0,
    isLive := false, isFinished := false, color := "2" }

/-- Fixture: the same match, finished. -/
def mFinished : Match :=
  { name := "A vs B", startTime := utc 2024 5 1 14 0 0,
    isLive := false, isFinished := true, color := "3" }

/-- Fixture: the stored calendar event for the match as the provider returns
it (whole seconds, Z suffix), spanning 14:00-15:30. -/
def evStored : GEvent :=
  { summary := "A vs B", start := "2024-05-01T14:00:00Z",
    endTime := "2024-05-01T15:30:00Z", colorId := "2" }

/-- Fixture: a second stored event sharing the same title (a correlation
conflict with evStored). -/
def evStoredDup : GEvent :=
  { summary := "A vs B", start := "2024-05-01T14:00:00Z",
    endTime := "2024-05-01T15:00:00Z", colorId := "2" }

/-- Whether the first list is an initial segment of the second. -/
def startsWithChars : List Char → List Char → Bool
  | [], _ => true
  | _ :: _, [] => false
  | a :: as, b :: bs => a = b && startsWithChars as bs

/-- Whether the pattern occurs inside the text. -/
def occursIn (pat : List Char) : List Char → Bool
  | [] => startsWithChars pat []
  | b :: bs => startsWithChars pat (b :: bs) || occursIn pat bs

/-- Whether the pattern occurs as a substring (the Python in operator on
strings). -/
def containsSub (s pat : String) : Bool := occursIn pat.data s.data

/-- Fixture: a live match with a different title, correlating to no stored
event. -/
def mOther : Match :=
  { name := "C vs D", startTime := utc 2024 5 1 14 0 0,
    isLive := true, isFinished := false, color := "10" }

/-- Claim C1: for a not-finished match with an existing event, the computed
end starts from the existing end, is raised to scheduledStart plus the
default duration when it falls short of that baseline, and is then,
independently, raised to now plus the extension buffer when the match is
live and the (possibly raised) end lies before now; this value is the end
used for the update comparison.  The first conjunct characterises
update_event_end as that policy (the raise-to-baseline step being a max);
the second shows update_event compares and writes exactly its rendering. -/
theorem C1_update_end_policy :
    (∀ (s e now : Int) (isLive : Bool),
      update_event_end s isLive e now =
        if isLive = true ∧ max e (s + minutesUs MATCH_DEFAULT_DURATION_MINUTES) < now
        then now + minutesUs MATCH_EXTEND_MINUTES
        else max e (s + minutesUs MATCH_DEFAULT_DURATION_MINUTES)) ∧
    (∀ (m : Match) (ev : GEvent) (now e0 : Int),
      from_google_date_to_datetime ev.endTime = .ok e0 →
      update_event m ev now =
        .ok (if different_start_times ev.start (pyIsoformat m.startTime) ||
              different_end_times ev.endTime
                (pyIsoformat (update_event_end m.startTime m.is_still_going e0 now)) ||
              different_colors ev.colorId m.color then
            .updated (pyIsoformat m.startTime)
              (pyIsoformat (update_event_end m.startTime m.is_still_going e0 now))
              m.color
          else .noChange)) := by
  constructor
  · intro s e now isLive
    cases isLive <;>
      simp only [update_event_end, max_def, Bool.false_eq_true, false_and,
        true_and, if_false, if_true, reduceCtorEq] <;>
      split_ifs <;> omega
  · intro m ev now e0 h
    simp only [update_event, h, Except.map]

/-- A hypothesis-free instantiation of the second conjunct of
C1_update_end_policy at the stored fixture event. -/
theorem C1_update_end_policy_witness :
    from_google_date_to_datetime evStored.endTime = .ok (utc 2024 5 1 15 30 0) ∧
    update_event mLive evStored (utc 2024 5 1 15 40 0) =
      .ok (if different_start_times evStored.start (pyIsoformat mLive.startTime) ||
            different_end_times evStored.endTime
              (pyIsoformat (update_event_end mLive.startTime mLive.is_still_going
                (utc 2024 5 1 15 30 0) (utc 2024 5 1 15 40 0))) ||
            different_colors evStored.colorId mLive.color then
          .updated (pyIsoformat mLive.startTime)
            (pyIsoformat (update_event_end mLive.startTime mLive.is_still_going
              (utc 2024 5 1 15 30 0) (utc 2024 5 1 15 40 0)))
            mLive.color
        else .noChange) :=
  ⟨by rfl, C1_update_end_policy.2 mLive evStored (utc 2024 5 1 15 40 0)
    (utc 2024 5 1 15 30 0) (by rfl)⟩

/-- Claim C2: on the creation path the event body carries
start = scheduledStart, colorCode = the match colour, and
end = scheduledStart + default duration, except that a live match whose
baseline already passed gets end = now + extension buffer; in particular a
non-live match scheduled at 14:00 is created with end 15:30. -/
theorem C2_create_event_fields :
    (∀ (m : Match) (now : Int),
      (create_event m now).start = pyIsoformat m.startTime ∧
      (create_event m now).colorId = m.color ∧
      (create_event m now).endTime =
        pyIsoformat
          (if m.isLive = true ∧
              m.startTime + minutesUs MATCH_DEFAULT_DURATION_MINUTES < now
            then now + minutesUs MATCH_EXTEND_MINUTES
            else m.startTime + minutesUs MATCH_DEFAULT_DURATION_MINUTES)) ∧
    (create_event mNotStarted (utc 2024 5 1 13 0 0)).endTime =
      "2024-05-01T15:30:00+00:00" := by
  refine ⟨fun m now => ⟨rfl, rfl, ?_⟩, by decide⟩
  simp only [create_event, create_event_end, Match.is_still_going]

/-- Claim C3: for a finished match with an existing event, the decision is:
stored end still in the future and the event already started - update with
end = now and the match colour (scenario: end 15:30, now 15:10, start 14:00
updates the end to 15:10); otherwise colour differs - colour-only update;
otherwise no operation. -/
theorem C3_finished_decision :
    (∀ (es ee now : Int) (evc mc : String),
      (ee > now → now > es →
        update_finished_decision es ee now evc mc = .updatedEnd now mc) ∧
      (¬(ee > now ∧ now > es) → evc ≠ mc →
        update_finished_decision es ee now evc mc = .updatedColor mc) ∧
      (¬(ee > now ∧ now > es) → evc = mc →
        update_finished_decision es ee now evc mc = .noChange)) ∧
    update_finished_event mFinished { evStored with colorId := "3" }
        (utc 2024 5 1 15 10 0) =
      .ok (.updatedEnd (utc 2024 5 1 15 10 0) "3") := by
  refine ⟨fun es ee now evc mc => ⟨?_, ?_, ?_⟩, by rfl⟩
  · intro h1 h2
    simp only [update_finished_decision, if_pos (And.intro h1 h2)]
  · intro h1 h2
    simp only [update_finished_decision, if_neg h1, bne_iff_ne, ne_eq, h2,
      not_false_eq_true, if_pos, if_true]
  · intro h1 h2
    simp [update_finished_decision, if_neg h1, h2]

/-- Instantiation of the first branch of C3_finished_decision at concrete
times 10 < 20 < 30 and colours. -/
theorem C3_finished_decision_witness :
    (30 : Int) > 20 ∧ (20 : Int) > 10 ∧
    update_finished_decision 10 30 20 "2" "3" = .updatedEnd 20 "3" :=
  ⟨by decide, by decide,
    (C3_finished_decision.1 10 30 20 "2" "3").1 (by decide) (by decide)⟩

/-- Claim C6: the update-path end computation never retracts. First conjunct:
for t1 < t2 with the match still live and the scheduled start unchanged,
re-applying the policy at t2 to the t1 result never drops below the t1
result.  Second conjunct: the result never drops below the supplied existing
end for any scheduled start whatsoever, in particular one moved earlier than
previously stored. -/
theorem C6_monotonic_end :
    (∀ (s e t1 t2 : Int), t1 < t2 →
      update_event_end s true e t1 ≤
        update_event_end s true (update_event_end s true e t1) t2) ∧
    (∀ (s : Int) (isLive : Bool) (e now : Int),
      e ≤ update_event_end s isLive e now) := by
  constructor
  · intro s e t1 t2 h
    simp only [update_event_end, minutesUs, MATCH_DEFAULT_DURATION_MINUTES,
      MATCH_EXTEND_MINUTES]
    split_ifs <;> omega
  · intro s isLive e now
    simp only [update_event_end, minutesUs, MATCH_DEFAULT_DURATION_MINUTES,
      MATCH_EXTEND_MINUTES]
    split_ifs <;> omega

/-- Instantiation of C6_monotonic_end at t1 = 0 < t2 = 1 with the fixture
start time. -/
theorem C6_monotonic_end_witness :
    (0 : Int) < 1 ∧
    update_event_end (utc 2024 5 1 14 0 0) true 0 0 ≤
      update_event_end (utc 2024 5 1 14 0 0) true
        (update_event_end (utc 2024 5 1 14 0 0) true 0 0) 1 :=
  ⟨by decide, C6_monotonic_end.1 (utc 2024 5 1 14 0 0) 0 0 1 (by decide)⟩

/-- Claim C8: every end the core computes for the provider is at least the
corresponding start: the created end and the live-update end are at least
the scheduled start (which is the start sent alongside), and a finished
update that sets the end only fires when now, the value written, exceeds
the stored event start. -/
theorem C8_end_not_before_start :
    (∀ (s : Int) (isLive : Bool) (now : Int),
      s ≤ create_event_end s isLive now) ∧
    (∀ (s : Int) (isLive : Bool) (e now : Int),
      s ≤ update_event_end s isLive e now) ∧
    (∀ (es ee now : Int) (evc mc : String) (n : Int) (c : String),
      update_finished_decision es ee now evc mc = .updatedEnd n c →
      es ≤ n) := by
  refine ⟨?_, ?_, ?_⟩
  · intro s isLive now
    simp only [create_event_end, minutesUs, MATCH_DEFAULT_DURATION_MINUTES,
      MATCH_EXTEND_MINUTES]
    split_ifs with h
    · omega
    · omega
  · intro s isLive e now
    simp only [update_event_end, minutesUs, MATCH_DEFAULT_DURATION_MINUTES,
      MATCH_EXTEND_MINUTES]
    split_ifs <;> omega
  · intro es ee now evc mc n c h
    unfold update_finished_decision at h
    split_ifs at h with h1 h2
    all_goals cases h
    all_goals omega

/-- Instantiation of the finished-update conjunct of C8_end_not_before_start
at concrete times 100 < 150 < 300. -/
theorem C8_end_not_before_start_witness :
    update_finished_decision 100 300 150 "2" "3" = .updatedEnd 150 "3" ∧
    (100 : Int) ≤ 150 :=
  ⟨by decide,
    C8_end_not_before_start.2.2 100 300 150 "2" "3" 150 "3" (by decide)⟩

/-- String append acts as append on the underlying character lists. -/
theorem str_append_data (s t : String) : (s ++ t).data = s.data ++ t.data := rfl

/-- The character list of the +00:00 suffix literal. -/
theorem plus00_data : "+00:00".data = ['+', '0', '0', ':', '0', '0'] := rfl

/-- The last + of a string ending in +00:00 is the + of that suffix. -/
theorem rlastIdx_plus00 (y : List Char) :
    rlastIdx '+' (y ++ ['+', '0', '0', ':', '0', '0']) = some y.length := by
  induction y with
  | nil => rfl
  | cons a l ih => simp [rlastIdx, ih]

theorem pyRfind_plus00 (y : String) :
    pyRfind (y ++ "+00:00") '+' = (y.data.length : Int) := by
  simp [pyRfind, str_append_data, plus00_data, rlastIdx_plus00]

/-- Slicing a +00:00-suffixed string up to its last + leaves the body. -/
theorem pySlice_rfind_plus00 (y : String) :
    pySlice (y ++ "+00:00") (pyRfind (y ++ "+00:00") '+') = y := by
  rw [pyRfind_plus00]
  simp [pySlice, str_append_data, plus00_data]

/-- Dropping the final character of a Z-suffixed string leaves the body. -/
theorem pySlice_neg_one_Z (y : String) :
    pySlice (y ++ "Z") (-1) = y := by
  simp [pySlice, str_append_data, show "Z".data = ['Z'] from rfl]

/-- Dropping the final character of a +00:00-suffixed string leaves the body
followed by +00:0. -/
theorem pySlice_neg_one_plus00 (y : String) :
    pySlice (y ++ "+00:00") (-1) = ⟨y.data ++ ['+', '0', '0', ':', '0']⟩ := by
  have h : y.data.length ≤ y.length + 5 := Nat.le_add_right y.data.length 5
  simp [pySlice, str_append_data, plus00_data, List.take_append_eq_append_take,
    List.take_of_length_le h]

/-- A Z-suffixed stored value and a +00:00-suffixed new value with the same
body pass the comparison as equal. -/
theorem slice_Z_offset_eq (y : String) :
    (pySlice (y ++ "Z") (-1) !=
      pySlice (y ++ "+00:00") (pyRfind (y ++ "+00:00") '+')) = false := by
  rw [pySlice_rfind_plus00, pySlice_neg_one_Z, bne_self_eq_false]

/-- Two identical +00:00-suffixed values always compare as different: the
stored side loses only its final character while the new side loses its
whole +00:00 suffix. -/
theorem slice_plus00_self_ne (y : String) :
    (pySlice (y ++ "+00:00") (-1) !=
      pySlice (y ++ "+00:00") (pyRfind (y ++ "+00:00") '+')) = true := by
  rw [pySlice_rfind_plus00, pySlice_neg_one_plus00]
  simp only [bne_iff_ne, ne_eq]
  intro h
  have h2 := congrArg (fun s : String => s.data.length) h
  simp at h2

/-- Claim C4 as stated is false: two stored/new strings denoting the very
same whole-second UTC instant in the +00:00 spelling are judged different
by the comparison, because it strips one trailing character from the stored
side but the whole +00:00 suffix from the new side. -/
theorem C4_counterexample :
    (specInstantTruncated "2024-05-01T10:00:00+00:00").isSome = true ∧
    different_start_times "2024-05-01T10:00:00+00:00"
      "2024-05-01T10:00:00+00:00" = true ∧
    different_end_times "2024-05-01T10:00:00+00:00"
      "2024-05-01T10:00:00+00:00" = true := ⟨rfl, rfl, rfl⟩

/-- Claim C4, amended: the comparison is textual on the stripped bodies,
not instant-based.  A Z-suffixed stored value and a +00:00-suffixed newly
computed value sharing the same body - whole-second or carrying identical
sub-second digits, hence in particular denoting the same UTC instant
truncated to whole seconds - are judged equal, so that field alone never
triggers an Update; in particular 2024-05-01T10:00:00Z versus
2024-05-01T10:00:00+00:00 compares equal, and so does the same pair with
identical fractional digits .500000.  A stored value in the +00:00
spelling, however, is judged different from an identical computed value
even though both denote the same instant (see the counterexample). -/
theorem C4_suffix_equivalence :
    (∀ y : String,
      different_start_times (y ++ "Z") (y ++ "+00:00") = false ∧
      different_end_times (y ++ "Z") (y ++ "+00:00") = false) ∧
    different_start_times "2024-05-01T10:00:00Z"
      "2024-05-01T10:00:00+00:00" = false ∧
    different_end_times "2024-05-01T10:00:00Z"
      "2024-05-01T10:00:00+00:00" = false ∧
    specInstantTruncated "2024-05-01T10:00:00Z" =
      specInstantTruncated "2024-05-01T10:00:00+00:00" ∧
    (specInstantTruncated "2024-05-01T10:00:00Z").isSome = true ∧
    different_start_times "2024-05-01T10:00:00.500000Z"
      "2024-05-01T10:00:00.500000+00:00" = false ∧
    different_end_times "2024-05-01T10:00:00.500000Z"
      "2024-05-01T10:00:00.500000+00:00" = false ∧
    specInstantTruncated "2024-05-01T10:00:00.500000Z" =
      specInstantTruncated "2024-05-01T10:00:00Z" ∧
    specInstantTruncated "2024-05-01T10:00:00.500000+00:00" =
      specInstantTruncated "2024-05-01T10:00:00Z" := by
  refine ⟨fun y => ⟨?_, ?_⟩, rfl, rfl, rfl, rfl, rfl, rfl, rfl, rfl⟩
  · exact slice_Z_offset_eq y
  · exact slice_Z_offset_eq y

/-- isoformat output is its date-time body followed by the +00:00 suffix. -/
theorem pyIsoformat_suffix (t : Int) :
    pyIsoformat t = (⟨isoBody t⟩ : String) ++ "+00:00" := rfl

/-- Claim C5 as stated is false at a concrete input: a live match at 15:40
whose stored 14:00-15:30 event gets extended to 16:00 by a first update;
feeding the produced fields back as the existing event makes the second
reconciliation issue the same update again instead of NoOp, because the
produced +00:00-suffixed strings never pass the suffix-stripping
comparison. -/
theorem C5_counterexample :
    update_event mLive evStored (utc 2024 5 1 15 40 0) =
      .ok (.updated "2024-05-01T14:00:00+00:00" "2024-05-01T16:00:00+00:00"
        "10") ∧
    update_event mLive
        { evStored with
          start := "2024-05-01T14:00:00+00:00",
          endTime := "2024-05-01T16:00:00+00:00",
          colorId := "10" }
        (utc 2024 5 1 15 40 0) =
      .ok (.updated "2024-05-01T14:00:00+00:00" "2024-05-01T16:00:00+00:00"
        "10") ∧
    (Except.ok (LiveAction.updated "2024-05-01T14:00:00+00:00"
        "2024-05-01T16:00:00+00:00" "10") : Except String LiveAction) ≠
      .ok .noChange :=
  ⟨rfl, rfl, by simp⟩

/-- Claim C5, amended: reconciling twice with the same now and match state
is idempotent in value - the end computation is a projection, so the second
run recomputes exactly the fields it fed in - but never in effect: feeding
the produced +00:00-suffixed fields back as the existing event makes the
comparison report a change again, so the second reconciliation issues a
redundant value-identical Update (or raises on a microsecond-bearing
written-back end), never NoOp.  NoOp on the second pass occurs only when the
provider re-serialises the stored times into the whole-second Z-suffixed
form in which events are listed. -/
theorem C5_idempotent_value_never_noop :
    (∀ (s : Int) (isLive : Bool) (e now : Int),
      update_event_end s isLive (update_event_end s isLive e now) now =
        update_event_end s isLive e now) ∧
    (∀ (m : Match) (ev : GEvent) (now : Int) (ns ne nc : String),
      update_event m ev now = .ok (.updated ns ne nc) →
      update_event m { ev with start := ns, endTime := ne, colorId := nc }
          now ≠ .ok .noChange) := by
  constructor
  · intro s isLive e now
    simp only [update_event_end, minutesUs, MATCH_DEFAULT_DURATION_MINUTES,
      MATCH_EXTEND_MINUTES]
    split_ifs <;> omega
  · intro m ev now ns ne nc h
    unfold update_event at h
    cases hp : from_google_date_to_datetime ev.endTime with
    | error e =>
      rw [hp] at h
      simp [Except.map] at h
    | ok e0 =>
      rw [hp] at h
      simp only [Except.map, Except.ok.injEq] at h
      split at h
      case isFalse => simp at h
      case isTrue hc =>
        injection h with h1 h2 h3
        cases hp2 : from_google_date_to_datetime ne with
        | error e2 =>
          simp [update_event, hp2, Except.map]
        | ok e2 =>
          have hstart : different_start_times ns (pyIsoformat m.startTime) =
              true := by
            rw [← h1, pyIsoformat_suffix]
            exact slice_plus00_self_ne ⟨isoBody m.startTime⟩
          simp [update_event, hp2, Except.map, hstart]

/-- Hypothesis-free instantiation of the second conjunct of
C5_idempotent_value_never_noop at the live fixture. -/
theorem C5_idempotent_value_never_noop_witness :
    update_event mLive evStored (utc 2024 5 1 15 40 0) =
      .ok (.updated "2024-05-01T14:00:00+00:00" "2024-05-01T16:00:00+00:00"
        "10") ∧
    update_event mLive
        { evStored with
          start := "2024-05-01T14:00:00+00:00",
          endTime := "2024-05-01T16:00:00+00:00",
          colorId := "10" }
        (utc 2024 5 1 15 40 0) ≠ .ok .noChange :=
  ⟨rfl, C5_idempotent_value_never_noop.2 mLive evStored (utc 2024 5 1 15 40 0)
    "2024-05-01T14:00:00+00:00" "2024-05-01T16:00:00+00:00" "10" rfl⟩

/-- Claim C7 as stated is false at a concrete input: with two stored events
titled "A vs B", reconciling the batch [A vs B, C vs D] raises the
correlation-conflict error on the first match and aborts - the outcome list
is empty, so the remaining match C v D is never processed, instead of the
batch continuing. -/
theorem C7_counterexample :
    process_match [evStored, evStoredDup] (utc 2024 5 1 15 40 0) mLive =
      .error conflictMsg ∧
    update_calendar_events [evStored, evStoredDup] [mLive, mOther]
        (utc 2024 5 1 15 40 0) =
      ([], some conflictMsg) :=
  ⟨rfl, rfl⟩

/-- Claim C7, amended: when more than one stored event in the queried window
carries a match's title, reconciliation of that match fails with the
correlation-conflict error, and the uncaught error aborts the remainder of
the batch: exactly the matches before the conflicting one are processed,
the conflicting one and all later ones are not. -/
theorem C7_conflict_aborts_batch :
    ∀ (events : List GEvent) (now : Int) (pre : List Match) (m : Match)
      (post : List Match),
      (∀ m2 ∈ pre, ∃ a, process_match events now m2 = .ok a) →
      1 < (events.filter fun ev => ev.summary == m.name).length →
      process_match events now m = .error conflictMsg ∧
      ∃ done, update_calendar_events events (pre ++ m :: post) now =
        (done, some conflictMsg) ∧ done.length = pre.length := by
  intro events now pre m post hpre hconf
  have hm : process_match events now m = .error conflictMsg := by
    unfold process_match
    rw [if_pos hconf]
  refine ⟨hm, ?_⟩
  induction pre with
  | nil =>
    refine ⟨[], ?_, rfl⟩
    simp [update_calendar_events, hm]
  | cons p rest ih =>
    obtain ⟨a, ha⟩ := hpre p (by simp)
    obtain ⟨done, hd, hl⟩ := ih (fun m2 hm2 => hpre m2 (by simp [hm2]))
    refine ⟨(p.name, a) :: done, ?_, by simp [hl]⟩
    simp [update_calendar_events, ha, hd]

/-- Instantiation of C7_conflict_aborts_batch with one successfully
processed match before the conflicting one: exactly that first match is in
the outcome list when the batch aborts. -/
theorem C7_conflict_aborts_batch_witness :
    (∀ m2 ∈ [mOther], ∃ a,
      process_match [evStored, evStoredDup] (utc 2024 5 1 15 40 0) m2 =
        .ok a) ∧
    1 < (([evStored, evStoredDup].filter
      fun ev => ev.summary == mLive.name).length) ∧
    (process_match [evStored, evStoredDup] (utc 2024 5 1 15 40 0) mLive =
        .error conflictMsg ∧
      ∃ done, update_calendar_events [evStored, evStoredDup]
          ([mOther] ++ mLive :: []) (utc 2024 5 1 15 40 0) =
        (done, some conflictMsg) ∧ done.length = [mOther].length) := by
  refine ⟨?_, by decide, ?_⟩
  · intro m2 hm2
    rw [List.mem_singleton] at hm2
    subst hm2
    exact ⟨.created (create_event mOther (utc 2024 5 1 15 40 0)), rfl⟩
  · exact C7_conflict_aborts_batch [evStored, evStoredDup]
      (utc 2024 5 1 15 40 0) [mOther] mLive []
      (fun m2 hm2 => by
        rw [List.mem_singleton] at hm2
        subst hm2
        exact ⟨.created (create_event mOther (utc 2024 5 1 15 40 0)), rfl⟩)
      (by decide)

/-- Claim C9 as stated is false at a concrete input: on the finished update
path the changed end field is reported with old/new lines only - the source
omits the time flag there - so no duration delta is printed, while the claim
requires one for every timestamp field on both update paths. -/
theorem C9_counterexample :
    update_finished_event_report "2024-05-01T15:30:00Z" "2024-05-01T15:10:00Z"
        "10" "3" =
      .ok ("\tUpdated finished event:\n \t\told end: 2024-05-01T15:30:00Z\n\t\tnew end: 2024-05-01T15:10:00Z\n \t\told status: Status.LIVE\n\t\tnew status: Status.FINISHED\n") ∧
    containsSub "\tUpdated finished event:\n \t\told end: 2024-05-01T15:30:00Z\n\t\tnew end: 2024-05-01T15:10:00Z\n \t\told status: Status.LIVE\n\t\tnew status: Status.FINISHED\n"
      "diff:" = false :=
  ⟨rfl, by decide⟩

/-- Claim C9, amended: for every changed field the reporter emits an
old/new line pair and emits nothing when the values are equal; colour codes
are mapped to status labels before printing; the duration delta
newValue - oldValue is printed for the timestamp fields of the live update
path (start and end), while the finished update path prints its end change
without a delta. -/
theorem C9_reporter_lines :
    (∀ (w o n : String) (tf : Bool), o = n →
      show_if_different w o n tf = .ok "") ∧
    (∀ w o n : String, o ≠ n →
      show_if_different w o n false =
        .ok ("\t\told " ++ w ++ ": " ++ o ++ "\n\t\tnew " ++ w ++ ": " ++ n ++
          "\n")) ∧
    (∀ (w o n : String) (od nd : Int), o ≠ n →
      from_google_date_to_datetime o = .ok od →
      from_google_date_to_datetime n = .ok nd →
      show_if_different w o n true =
        .ok ("\t\told " ++ w ++ ": " ++ o ++ "\n\t\tnew " ++ w ++ ": " ++ n ++
          "\n" ++ "\t\tdiff: " ++ pyTimedeltaStr (nd - od) ++ "\n")) ∧
    (∀ os oe oc rs re mc a b c : String,
      show_if_different "start" os rs true = .ok a →
      show_if_different "end" oe re true = .ok b →
      show_if_different "status" (status_from_color oc)
        (status_from_color mc) false = .ok c →
      update_event_report os oe oc rs re mc =
        .ok ("\tUpdated event:\n " ++ a ++ " " ++ b ++ " " ++ c)) ∧
    (∀ oe re oc mc a b : String,
      show_if_different "end" oe re false = .ok a →
      show_if_different "status" (status_from_color oc)
        (status_from_color mc) false = .ok b →
      update_finished_event_report oe re oc mc =
        .ok ("\tUpdated finished event:\n " ++ a ++ " " ++ b)) := by
  refine ⟨?_, ?_, ?_, ?_, ?_⟩
  · intro w o n tf h
    subst h
    simp [show_if_different]
  · intro w o n h
    have hb : (o != n) = true := bne_iff_ne.mpr h
    simp [show_if_different, hb]
  · intro w o n od nd h h1 h2
    have hb : (o != n) = true := bne_iff_ne.mpr h
    simp [show_if_different, hb, h1, h2, Except.bind, Except.map]
  · intro os oe oc rs re mc a b c h1 h2 h3
    simp [update_event_report, h1, h2, h3, Except.bind, Except.map]
  · intro oe re oc mc a b h1 h2
    simp [update_finished_event_report, h1, h2, Except.bind, Except.map]

/-- Hypothesis-free instantiation of the delta conjunct of C9_reporter_lines:
a live-path end change from 15:30 to 16:00 prints the old/new lines and the
delta 0:30:00. -/
theorem C9_reporter_lines_witness :
    show_if_different "end" "2024-05-01T15:30:00Z" "2024-05-01T16:00:00Z"
        true =
      .ok ("\t\told " ++ "end" ++ ": " ++ "2024-05-01T15:30:00Z" ++
        "\n\t\tnew " ++ "end" ++ ": " ++ "2024-05-01T16:00:00Z" ++ "\n" ++
        "\t\tdiff: " ++ pyTimedeltaStr (1714579200000000 - 1714577400000000) ++
        "\n") :=
  C9_reporter_lines.2.2.1 "end" "2024-05-01T15:30:00Z"
    "2024-05-01T16:00:00Z" 1714577400000000 1714579200000000
    (by decide) rfl rfl

/-- Every digit character produced by digitChar10 satisfies isDigit. -/
theorem digitChar10_isDigit (k : Nat) : (digitChar10 k).isDigit = true := by
  rcases k with _ | _ | _ | _ | _ | _ | _ | _ | _ | _ <;> rfl

theorem digitOf_isDigit (n : Nat) : (digitOf n).isDigit = true :=
  digitChar10_isDigit (n % 10)

theorem digitOf_ne_Z (n : Nat) : digitOf n ≠ 'Z' := by
  intro h
  have hd := digitOf_isDigit n
  rw [h] at hd
  exact absurd hd (by decide)

theorem replaceZ_cons_ne {c : Char} (h : c ≠ 'Z') (l : List Char) :
    replaceZ (c :: l) = c :: replaceZ l := by
  simp [replaceZ, h]

/-- str.replace("Z", "+0000") leaves a Z-free string unchanged. -/
theorem replaceZ_eq_self : ∀ {l : List Char},
    (∀ c ∈ l, c ≠ 'Z') → replaceZ l = l
  | [], _ => rfl
  | x :: xs, h => by
    rw [replaceZ_cons_ne (h x (by simp)),
      replaceZ_eq_self (fun c hc => h c (by simp [hc]))]

/-- strptime with the whole-second format fails on any input whose seconds
field is followed by a dot: the %z offset pattern cannot begin with one. -/
theorem strptimeSZ_dot_fails (a b c d e f : Nat) (r : List Char) :
    strptimeSZ (pad4 a ++ '-' :: pad2 b ++ '-' :: pad2 c ++ 'T' :: pad2 d ++
      ':' :: pad2 e ++ ':' :: pad2 f ++ '.' :: r) = none := by
  simp [strptimeSZ, parseYMD, parseHMS, parse4, parse2, expectChar,
    parseOffset, pad4, pad2, digitOf_isDigit, Option.bind]

/-- The rendering of an instant with a nonzero microsecond component,
flattened: body, dot, six fraction digits, offset suffix. -/
theorem isoChars_fraction (t : Int) (h : isoUs t ≠ 0) :
    isoChars t =
      pad4 (isoYMD t).1.toNat ++ '-' :: pad2 (isoYMD t).2.1.toNat ++
      '-' :: pad2 (isoYMD t).2.2.toNat ++ 'T' :: pad2 (isoSec t / 3600) ++
      ':' :: pad2 (isoSec t / 60 % 60) ++ ':' :: pad2 (isoSec t % 60) ++
      '.' :: (pad6 (isoUs t) ++ ['+', '0', '0', ':', '0', '0']) := by
  simp [isoChars, isoBody, if_neg h, List.append_assoc]

theorem pad2_all_ne_Z (n : Nat) : (pad2 n).all (fun c => c != 'Z') = true := by
  simp [pad2, digitOf_ne_Z]

theorem pad4_all_ne_Z (n : Nat) : (pad4 n).all (fun c => c != 'Z') = true := by
  simp [pad4, digitOf_ne_Z]

theorem pad6_all_ne_Z (n : Nat) : (pad6 n).all (fun c => c != 'Z') = true := by
  simp [pad6, digitOf_ne_Z]

/-- No character of an isoformat rendering with a fraction is a Z. -/
theorem isoChars_all_ne_Z (t : Int) (h : isoUs t ≠ 0) :
    (isoChars t).all (fun c => c != 'Z') = true := by
  rw [isoChars_fraction t h]
  simp [pad4_all_ne_Z, pad2_all_ne_Z, pad6_all_ne_Z]

theorem replaceZ_eq_self_of_all {l : List Char}
    (h : l.all (fun c => c != 'Z') = true) : replaceZ l = l :=
  replaceZ_eq_self (by simpa [List.all_eq_true] using h)

/-- Re-reading an isoformat value that carries microseconds raises: the
whole-second parser stops at the dot. -/
theorem from_google_fraction_error (t : Int) (h : Int.emod t 1000000 ≠ 0) :
    from_google_date_to_datetime (pyIsoformat t) =
      .error ("time data " ++ pyIsoformat t ++ " does not match format") := by
  have hus : isoUs t ≠ 0 := by
    unfold isoUs
    have h2 : 0 ≤ Int.emod t 86400000000 := Int.emod_nonneg t (by norm_num)
    intro h0
    apply h
    have hcast : ((Int.emod t 86400000000).toNat : Int) % 1000000 = 0 := by
      have hc := congrArg (Nat.cast : Nat → Int) h0
      push_cast at hc
      exact hc
    rw [Int.toNat_of_nonneg h2] at hcast
    calc Int.emod t 1000000
        = Int.emod (Int.emod t 86400000000) 1000000 :=
          (Int.emod_emod_of_dvd t (by norm_num)).symm
      _ = 0 := hcast
  unfold from_google_date_to_datetime
  have hdata : (pyIsoformat t).data = isoChars t := rfl
  rw [hdata, replaceZ_eq_self_of_all (isoChars_all_ne_Z t hus),
    isoChars_fraction t hus, strptimeSZ_dot_fails]

/-- Claim C10: the stored-time parser accepts only whole-second timestamps -
any value whose seconds are followed by fractional digits fails to parse and
raises - and since the update paths write back isoformat renderings, which
carry a .ffffff fraction whenever the instant has a nonzero microsecond
component, a later reconciliation that re-reads such a written-back end time
raises (on both the live and the finished path) instead of producing an
action. -/
theorem C10_fractional_seconds_raise :
    (∀ (a b c d e f : Nat) (r : List Char),
      strptimeSZ (pad4 a ++ '-' :: pad2 b ++ '-' :: pad2 c ++ 'T' :: pad2 d ++
        ':' :: pad2 e ++ ':' :: pad2 f ++ '.' :: r) = none) ∧
    (∀ t : Int, Int.emod t 1000000 ≠ 0 →
      from_google_date_to_datetime (pyIsoformat t) =
        .error ("time data " ++ pyIsoformat t ++ " does not match format")) ∧
    (∀ (m : Match) (ev : GEvent) (now t : Int), Int.emod t 1000000 ≠ 0 →
      ev.endTime = pyIsoformat t →
      update_event m ev now =
        .error ("time data " ++ pyIsoformat t ++ " does not match format") ∧
      ∃ e, update_finished_event m ev now = .error e) := by
  refine ⟨strptimeSZ_dot_fails, from_google_fraction_error, ?_⟩
  intro m ev now t ht hend
  constructor
  · unfold update_event
    rw [hend, from_google_fraction_error t ht]
    rfl
  · unfold update_finished_event
    cases hp : from_google_date_to_datetime ev.start with
    | error e => exact ⟨e, rfl⟩
    | ok v =>
      refine ⟨"time data " ++ pyIsoformat t ++ " does not match format", ?_⟩
      rw [hend, from_google_fraction_error t ht]
      rfl

/-- Hypothesis-free instantiation of C10_fractional_seconds_raise at an end
time of 16:00:00.500000: the live-path reconciliation of the fixture match
raises on re-reading it. -/
theorem C10_fractional_seconds_raise_witness :
    Int.emod (utc 2024 5 1 16 0 0 + 500000) 1000000 ≠ 0 ∧
    update_event mLive
        { evStored with endTime := pyIsoformat (utc 2024 5 1 16 0 0 + 500000) }
        (utc 2024 5 1 16 30 0) =
      .error ("time data " ++ pyIsoformat (utc 2024 5 1 16 0 0 + 500000) ++
        " does not match format") :=
  ⟨by decide,
    (C10_fractional_seconds_raise.2.2 mLive
      { evStored with endTime := pyIsoformat (utc 2024 5 1 16 0 0 + 500000) }
      (utc 2024 5 1 16 30 0) (utc 2024 5 1 16 0 0 + 500000)
      (by decide) rfl).1⟩
